import Mathlib

/-!
Verification of the streaming TTS adapter of the `echopipeline` repository
(`pipecat_pipeline/custom_vibevoice_tts_service.py` and
`pipecat_pipeline/custom_echo_tts_service.py`).

Python strings are modelled as lists of Unicode code points (`PyStr`).
Numeric request parameters (`cfg_scale`, `inference_steps`, `seed`, ...)
are modelled by their decimal string images, because the adapter code only
ever applies `str` to them before use.
-/

/-- A Python string: a sequence of Unicode code points. -/
abbrev PyStr := List Char

/-- Short constructor from a Lean string literal. -/
def pys (s : String) : PyStr := s.toList

/-- `s.startswith(pre)` from Python. -/
def pyStartswith (s pre : PyStr) : Bool := List.isPrefixOf pre s

/-- Characters stripped by Python's argument-less `str.strip()`
(`str.isspace` code points). -/
def pyIsSpace (c : Char) : Bool :=
  c ∈ ([' ', '\t', '\n', '\x0D', '\x0B', '\x0C',
        '\x1C', '\x1D', '\x1E', '\x1F', '\x85', '\xA0',
        ' ', ' ', ' ', ' ', ' ', ' ',
        ' ', ' ', ' ', ' ', ' ', ' ',
        ' ', ' ', ' ', ' ', '　'] : List Char)

/-- Python `text.strip()` (no argument): drop whitespace from both ends. -/
def pyStrip (s : PyStr) : PyStr :=
  ((s.dropWhile pyIsSpace).reverse.dropWhile pyIsSpace).reverse

/-- The guard `not text or not text.strip()` from `run_tts`. -/
def blankText (text : PyStr) : Bool := text.isEmpty || (pyStrip text).isEmpty

/-- Python `s.rstrip("/")`: remove every trailing slash. -/
def pyRstripSlash (s : PyStr) : PyStr :=
  (s.reverse.dropWhile (fun c => c = '/')).reverse

/-- The scheme-rewriting step at the top of `_build_websocket_url`
(identical in both service files):
`http://` becomes `ws://`, `https://` becomes `wss://`, an address already
starting with `ws://` or `wss://` is kept, anything else is prefixed with
`ws://`. -/
def schemeRewrite (base_url : PyStr) : PyStr :=
  if pyStartswith base_url (pys "http://") then pys "ws://" ++ base_url.drop 7
  else if pyStartswith base_url (pys "https://") then pys "wss://" ++ base_url.drop 8
  else if pyStartswith base_url (pys "ws://") || pyStartswith base_url (pys "wss://") then
    base_url
  else pys "ws://" ++ base_url

/-- Characters never quoted by `urllib.parse.quote` /`quote_plus`
(ASCII letters, digits, `_.-~`). -/
def alwaysSafeChar (c : Char) : Bool :=
  c.isAlpha || c.isDigit || c = '_' || c = '.' || c = '-' || c = '~'

/-- UTF-8 encoding of one code point, as byte values. -/
def utf8Bytes (c : Char) : List Nat :=
  let n := c.toNat
  if n < 0x80 then [n]
  else if n < 0x800 then
    [0xC0 ||| (n >>> 6), 0x80 ||| (n &&& 0x3F)]
  else if n < 0x10000 then
    [0xE0 ||| (n >>> 12), 0x80 ||| ((n >>> 6) &&& 0x3F), 0x80 ||| (n &&& 0x3F)]
  else
    [0xF0 ||| (n >>> 18), 0x80 ||| ((n >>> 12) &&& 0x3F),
     0x80 ||| ((n >>> 6) &&& 0x3F), 0x80 ||| (n &&& 0x3F)]

/-- Upper-case hexadecimal digit. -/
def hexUpper (n : Nat) : Char :=
  if n < 10 then Char.ofNat ('0'.toNat + n) else Char.ofNat ('A'.toNat + n - 10)

/-- `%XX` percent encoding of one byte. -/
def percentEncodeByte (b : Nat) : PyStr := ['%', hexUpper (b / 16), hexUpper (b % 16)]

/-- `urllib.parse.quote_plus` on one code point with `safe=''`. -/
def quote_plus_char (c : Char) : PyStr :=
  if alwaysSafeChar c then [c]
  else if c = ' ' then ['+']
  else ((utf8Bytes c).map percentEncodeByte).flatten

/-- `urllib.parse.quote_plus` with `safe=''` (the quoting used by
`urllib.parse.urlencode`). -/
def quote_plus (s : PyStr) : PyStr := (s.map quote_plus_char).flatten

/-- `urllib.parse.urlencode` on an ordered association list. -/
def urlencode (params : List (PyStr × PyStr)) : PyStr :=
  List.intercalate (pys "&")
    (params.map (fun p => quote_plus p.1 ++ pys "=" ++ quote_plus p.2))

/-- `server_url or os.environ.get(...)` from `__init__`: Python `or`
falls through on a falsy (absent or empty) left operand. -/
def resolve_server_url (server_url env_url : Option PyStr) : Option PyStr :=
  match server_url with
  | some s => if s.isEmpty then env_url else some s
  | none => env_url

/-- The server-address part of `__init__` (identical in both service
files): resolve the address from the argument and the environment
fallback, raise `ValueError` (modelled by `none`) when the result is
falsy, otherwise store it with trailing slashes removed. -/
def init_server_url (server_url env_url : Option PyStr) : Option PyStr :=
  match resolve_server_url server_url env_url with
  | none => none
  | some s => if s.isEmpty then none else some (pyRstripSlash s)

/-- The mutable state and configuration of a `VibeVoiceTTSService`
instance, as stored by `__init__`. -/
structure VibeVoiceTTSService where
  server_url : PyStr
  voice : PyStr
  cfg_scale : PyStr
  inference_steps : PyStr
  sample_rate : Nat
  websocket : Option Nat
deriving DecidableEq

/-- The mutable state and configuration of an `EchoTTSService`
instance, as stored by `__init__`. -/
structure EchoTTSService where
  server_url : PyStr
  voice : PyStr
  cfg_scale_text : PyStr
  cfg_scale_speaker : PyStr
  seed : PyStr
  sample_rate : Nat
  websocket : Option Nat
deriving DecidableEq

/-- `VibeVoiceTTSService._build_websocket_url`: rewrite the scheme, append
the fixed `/stream` path and the URL-encoded query parameters in source
order `text, voice, cfg, steps`. -/
def VibeVoiceTTSService.build_websocket_url (svc : VibeVoiceTTSService) (text : PyStr) : PyStr :=
  schemeRewrite svc.server_url ++ pys "/stream?" ++
    urlencode [(pys "text", text), (pys "voice", svc.voice),
               (pys "cfg", svc.cfg_scale), (pys "steps", svc.inference_steps)]

/-- `EchoTTSService._build_websocket_url`: rewrite the scheme, append the
fixed `/stream` path and the URL-encoded query parameters in source order
`text, voice, cfg_scale_text, cfg_scale_speaker, seed`. -/
def EchoTTSService.build_websocket_url (svc : EchoTTSService) (text : PyStr) : PyStr :=
  schemeRewrite svc.server_url ++ pys "/stream?" ++
    urlencode [(pys "text", text), (pys "voice", svc.voice),
               (pys "cfg_scale_text", svc.cfg_scale_text),
               (pys "cfg_scale_speaker", svc.cfg_scale_speaker),
               (pys "seed", svc.seed)]

-- Prefix facts used to settle the scheme-rewriting claims.

theorem isPrefixOf_append_self (l t : List Char) : List.isPrefixOf l (l ++ t) = true := by
  induction l with
  | nil => simp [List.isPrefixOf]
  | cons a as ih => simp [List.isPrefixOf, ih]

theorem exists_of_isPrefixOf (p : List Char) :
    ∀ s : List Char, List.isPrefixOf p s = true → ∃ t, s = p ++ t := by
  induction p with
  | nil => exact fun s _ => ⟨s, rfl⟩
  | cons a as ih =>
    intro s h
    cases s with
    | nil => simp [List.isPrefixOf] at h
    | cons b bs =>
      simp only [List.isPrefixOf, Bool.and_eq_true, beq_iff_eq] at h
      obtain ⟨t, ht⟩ := ih bs h.2
      exact ⟨t, by rw [h.1, ht]; rfl⟩

theorem ws_append_not_http (r : PyStr) :
    pyStartswith (pys "ws://" ++ r) (pys "http://") = false := rfl

theorem ws_append_not_https (r : PyStr) :
    pyStartswith (pys "ws://" ++ r) (pys "https://") = false := rfl

theorem ws_append_ws (r : PyStr) :
    pyStartswith (pys "ws://" ++ r) (pys "ws://") = true :=
  isPrefixOf_append_self (pys "ws://") r

theorem wss_append_not_http (r : PyStr) :
    pyStartswith (pys "wss://" ++ r) (pys "http://") = false := rfl

theorem wss_append_not_https (r : PyStr) :
    pyStartswith (pys "wss://" ++ r) (pys "https://") = false := rfl

theorem wss_append_not_ws (r : PyStr) :
    pyStartswith (pys "wss://" ++ r) (pys "ws://") = false := rfl

theorem wss_append_wss (r : PyStr) :
    pyStartswith (pys "wss://" ++ r) (pys "wss://") = true :=
  isPrefixOf_append_self (pys "wss://") r

/-- An inbound WebSocket message, as distinguished by the
`isinstance(message, bytes)` / `isinstance(message, str)` test in
`run_tts`. Byte payloads are lists of byte values. -/
inductive ServerMessage where
  | binary (payload : List Nat)
  | textMsg (s : PyStr)
deriving DecidableEq

/-- How the receive loop of one established connection ends: the stream
is exhausted normally, the server closes abruptly
(`websockets.exceptions.ConnectionClosed`), or some other exception is
raised mid-stream. -/
inductive StreamExit where
  | normal
  | connectionClosed
  | otherError
deriving DecidableEq

/-- The network-level outcome of one `run_tts` call that reaches
`websockets.connect`: either the connection attempt itself raises, or a
connection is established and delivers `msgs` before ending as `ex`. -/
inductive ConnectOutcome where
  | connectFailure
  | stream (msgs : List ServerMessage) (ex : StreamExit)
deriving DecidableEq

/-- The pipeline frames yielded by `run_tts`: `TTSStartedFrame`,
`TTSAudioRawFrame(audio, sample_rate, num_channels)`, `TTSStoppedFrame`. -/
inductive Frame where
  | started
  | audio (payload : List Nat) (sample_rate : Nat) (num_channels : Nat)
  | stopped
deriving DecidableEq

def Frame.isStarted : Frame → Bool
  | .started => true
  | _ => false

def Frame.isAudio : Frame → Bool
  | .audio _ _ _ => true
  | _ => false

def Frame.isStopped : Frame → Bool
  | .stopped => true
  | _ => false

/-- The frame produced for one inbound message in the receive loop of
`run_tts`: a binary message is wrapped as a `TTSAudioRawFrame` with the
instance's sample rate and one channel; a textual message is only logged
and produces no frame. -/
def frameOfMessage (sample_rate : Nat) (m : ServerMessage) : Option Frame :=
  match m with
  | .binary payload => some (Frame.audio payload sample_rate 1)
  | .textMsg _ => none

/-- The payloads of the binary messages of a stream, in order. -/
def binaryPayloads (msgs : List ServerMessage) : List (List Nat) :=
  msgs.filterMap fun m =>
    match m with
    | ServerMessage.binary payload => some payload
    | ServerMessage.textMsg _ => none

/-- What one `run_tts` call produces and leaves behind. -/
structure RunResult where
  events : List Frame
  connect_attempts : Nat
  websocket_after : Option Nat
deriving DecidableEq

/-- `run_tts` (identical control flow in both service files):
blank text returns before any network I/O; otherwise one connection is
attempted. On a connect failure the `except` clause yields only
`TTSStoppedFrame`; on an established connection the call yields
`TTSStartedFrame`, one audio frame per binary message, and — whether the
stream ends normally or by a caught exception — a final
`TTSStoppedFrame`. The `finally` clause clears `self._websocket` on
every path that entered the `try` block. -/
def run_tts_model (sample_rate : Nat) (websocket_before : Option Nat)
    (text : PyStr) (o : ConnectOutcome) : RunResult :=
  if blankText text then
    { events := [], connect_attempts := 0, websocket_after := websocket_before }
  else
    match o with
    | .connectFailure =>
        { events := [Frame.stopped], connect_attempts := 1, websocket_after := none }
    | .stream msgs _ =>
        { events := Frame.started :: (msgs.filterMap (frameOfMessage sample_rate) ++ [Frame.stopped]),
          connect_attempts := 1, websocket_after := none }

/-- `VibeVoiceTTSService.run_tts`. -/
def VibeVoiceTTSService.run_tts (svc : VibeVoiceTTSService) (text : PyStr)
    (o : ConnectOutcome) : RunResult :=
  run_tts_model svc.sample_rate svc.websocket text o

/-- `EchoTTSService.run_tts`. -/
def EchoTTSService.run_tts (svc : EchoTTSService) (text : PyStr)
    (o : ConnectOutcome) : RunResult :=
  run_tts_model svc.sample_rate svc.websocket text o

/-- What one `_close_websocket` call does and leaves behind:
`close_called_on` records the connection `close()` was invoked on, if
any, and `raised` whether an exception escaped the call. -/
structure CloseResult where
  websocket_after : Option Nat
  close_called_on : Option Nat
  raised : Bool
deriving DecidableEq

/-- `_close_websocket` (identical in both service files, and the body of
the `stop` and `cancel` hooks): when a connection is recorded, `close()`
is invoked on it, any close error is swallowed (logged), and the
`finally` clause clears the reference; when none is recorded, nothing
happens. `close_raises` says whether the underlying `close()` call
raises. -/
def close_websocket (websocket : Option Nat) (close_raises : Bool) : CloseResult :=
  match websocket, close_raises with
  | none, _ => { websocket_after := none, close_called_on := none, raised := false }
  | some c, _ => { websocket_after := none, close_called_on := some c, raised := false }

/-- The outcome of the HTTP GET in `get_available_voices`: a response
with a status code and a parsed JSON body, or an exception anywhere in
the request or in the parse. -/
inductive HttpOutcome (β : Type) where
  | response (status : Nat) (body : β)
  | exn

/-- The parsed JSON body used by `VibeVoiceTTSService.get_available_voices`:
only its optional `"voices"` field matters (`data.get("voices", [])`). -/
structure VibeVoiceConfigBody where
  voices : Option (List PyStr)

/-- One element of the `"data"` array of the Echo voices response, with
its optional `"id"` and `"name"` fields. -/
structure EchoVoiceItem where
  id : Option PyStr
  name : Option PyStr

/-- The parsed JSON body used by `EchoTTSService.get_available_voices`:
only its optional `"data"` field matters. -/
structure EchoVoicesBody where
  voice_items : Option (List EchoVoiceItem)

/-- `v.get("id", v.get("name", ""))` from the Echo voices list
comprehension. -/
def echo_voice_entry (v : EchoVoiceItem) : PyStr := v.id.getD (v.name.getD [])

/-- Response handling of `VibeVoiceTTSService.get_available_voices`: on
status 200 return `data.get("voices", [])`; on any other status return
`[]`; on any exception return `[]`. -/
def vibevoice_get_available_voices (o : HttpOutcome VibeVoiceConfigBody) : List PyStr :=
  match o with
  | .response status body => if status = 200 then body.voices.getD [] else []
  | .exn => []

/-- Response handling of `EchoTTSService.get_available_voices`: on status
200 return `[v.get("id", v.get("name", "")) for v in data.get("data", [])]`;
on any other status return `[]`; on any exception return `[]`. -/
def echo_get_available_voices (o : HttpOutcome EchoVoicesBody) : List PyStr :=
  match o with
  | .response status body =>
      if status = 200 then (body.voice_items.getD []).map echo_voice_entry else []
  | .exn => []

-- Helper facts about the frames produced by the receive loop.

theorem filterMap_frameOfMessage_eq (sample_rate : Nat) (msgs : List ServerMessage) :
    msgs.filterMap (frameOfMessage sample_rate)
      = (binaryPayloads msgs).map (fun b => Frame.audio b sample_rate 1) := by
  induction msgs with
  | nil => rfl
  | cons m ms ih =>
    cases m with
    | binary b => simp [binaryPayloads, List.filterMap_cons, frameOfMessage, ih]
    | textMsg s => simp [binaryPayloads, List.filterMap_cons, frameOfMessage, ih]

theorem countP_isStarted_audio (sample_rate : Nat) (bs : List (List Nat)) :
    (bs.map (fun b => Frame.audio b sample_rate 1)).countP Frame.isStarted = 0 := by
  induction bs with
  | nil => rfl
  | cons b tl ih => simp [List.countP_cons, Frame.isStarted, ih]

theorem countP_isStopped_audio (sample_rate : Nat) (bs : List (List Nat)) :
    (bs.map (fun b => Frame.audio b sample_rate 1)).countP Frame.isStopped = 0 := by
  induction bs with
  | nil => rfl
  | cons b tl ih => simp [List.countP_cons, Frame.isStopped, ih]

theorem filter_isAudio_audio (sample_rate : Nat) (bs : List (List Nat)) :
    (bs.map (fun b => Frame.audio b sample_rate 1)).filter Frame.isAudio
      = bs.map (fun b => Frame.audio b sample_rate 1) := by
  induction bs with
  | nil => rfl
  | cons b tl ih => simp [List.filter_cons, Frame.isAudio, ih]

/-- Claim C4: the scheme-rewriting step of URL construction is total and
idempotent under its own output: an address starting with `http://` maps
to the same address with `ws://`, one starting with `https://` maps to
`wss://`, one already starting with `ws://` or `wss://` is unchanged, and
any address with no recognized scheme prefix is prefixed with `ws://`;
applying the rewrite to its own output yields the same string. -/
theorem schemeRewrite_total_idempotent (base_url : PyStr) :
    (pyStartswith base_url (pys "http://") = true →
        schemeRewrite base_url = pys "ws://" ++ base_url.drop 7)
  ∧ (pyStartswith base_url (pys "https://") = true →
        schemeRewrite base_url = pys "wss://" ++ base_url.drop 8)
  ∧ ((pyStartswith base_url (pys "ws://") || pyStartswith base_url (pys "wss://")) = true →
        schemeRewrite base_url = base_url)
  ∧ (pyStartswith base_url (pys "http://") = false →
     pyStartswith base_url (pys "https://") = false →
     pyStartswith base_url (pys "ws://") = false →
     pyStartswith base_url (pys "wss://") = false →
        schemeRewrite base_url = pys "ws://" ++ base_url)
  ∧ schemeRewrite (schemeRewrite base_url) = schemeRewrite base_url := by
  refine ⟨?_, ?_, ?_, ?_, ?_⟩
  · intro h1
    simp [schemeRewrite, h1]
  · intro h2
    have h1 : pyStartswith base_url (pys "http://") = false := by
      obtain ⟨t, rfl⟩ := exists_of_isPrefixOf _ _ h2
      rfl
    simp [schemeRewrite, h1, h2]
  · intro h3
    rcases Bool.or_eq_true_iff.mp h3 with hws | hwss
    · obtain ⟨t, rfl⟩ := exists_of_isPrefixOf _ _ hws
      simp [schemeRewrite, ws_append_not_http, ws_append_not_https, ws_append_ws]
    · obtain ⟨t, rfl⟩ := exists_of_isPrefixOf _ _ hwss
      simp [schemeRewrite, wss_append_not_http, wss_append_not_https, wss_append_wss]
  · intro h1 h2 h3 h4
    simp [schemeRewrite, h1, h2, h3, h4]
  · by_cases h1 : pyStartswith base_url (pys "http://") = true
    · simp [schemeRewrite, h1, ws_append_not_http, ws_append_not_https, ws_append_ws]
    by_cases h2 : pyStartswith base_url (pys "https://") = true
    · have h1' : pyStartswith base_url (pys "http://") = false := by
        obtain ⟨t, rfl⟩ := exists_of_isPrefixOf _ _ h2
        rfl
      simp [schemeRewrite, h1', h2, wss_append_not_http, wss_append_not_https,
            wss_append_not_ws, wss_append_wss]
    by_cases h3 : (pyStartswith base_url (pys "ws://") || pyStartswith base_url (pys "wss://")) = true
    · rcases Bool.or_eq_true_iff.mp h3 with hws | hwss
      · obtain ⟨t, rfl⟩ := exists_of_isPrefixOf _ _ hws
        simp [schemeRewrite, ws_append_not_http, ws_append_not_https, ws_append_ws]
      · obtain ⟨t, rfl⟩ := exists_of_isPrefixOf _ _ hwss
        simp [schemeRewrite, wss_append_not_http, wss_append_not_https,
              wss_append_not_ws, wss_append_wss]
    · rw [Bool.not_eq_true] at h1 h2 h3
      simp [schemeRewrite, h1, h2, h3, ws_append_not_http, ws_append_not_https, ws_append_ws]

/-- Witness for claim C4 at concrete addresses for each branch. -/
theorem schemeRewrite_total_idempotent_witness :
    schemeRewrite (pys "http://h") = pys "ws://" ++ (pys "http://h").drop 7
  ∧ schemeRewrite (pys "https://h") = pys "wss://" ++ (pys "https://h").drop 8
  ∧ schemeRewrite (pys "wss://h") = pys "wss://h"
  ∧ schemeRewrite (pys "h") = pys "ws://" ++ pys "h"
  ∧ schemeRewrite (schemeRewrite (pys "h")) = schemeRewrite (pys "h") :=
  ⟨(schemeRewrite_total_idempotent (pys "http://h")).1 (by decide),
   (schemeRewrite_total_idempotent (pys "https://h")).2.1 (by decide),
   (schemeRewrite_total_idempotent (pys "wss://h")).2.2.1 (by decide),
   (schemeRewrite_total_idempotent (pys "h")).2.2.2.1 (by decide) (by decide) (by decide) (by decide),
   (schemeRewrite_total_idempotent (pys "h")).2.2.2.2⟩

/-- Claim C5: target URL construction is a pure, deterministic function of
the server base address, text, voice, and guidance/seed parameters: two
invocations with identical values of these inputs produce identical URL
strings, independent of any other instance state (here: even when the
`sample_rate` and `websocket` fields differ). -/
theorem build_websocket_url_deterministic
    (v1 v2 : VibeVoiceTTSService) (t1 t2 : PyStr)
    (e1 e2 : EchoTTSService) (u1 u2 : PyStr)
    (hva : v1.server_url = v2.server_url) (hvv : v1.voice = v2.voice)
    (hvc : v1.cfg_scale = v2.cfg_scale) (hvs : v1.inference_steps = v2.inference_steps)
    (hvt : t1 = t2)
    (hea : e1.server_url = e2.server_url) (hev : e1.voice = e2.voice)
    (hec : e1.cfg_scale_text = e2.cfg_scale_text)
    (hek : e1.cfg_scale_speaker = e2.cfg_scale_speaker)
    (hes : e1.seed = e2.seed) (het : u1 = u2) :
    VibeVoiceTTSService.build_websocket_url v1 t1 = VibeVoiceTTSService.build_websocket_url v2 t2
  ∧ EchoTTSService.build_websocket_url e1 u1 = EchoTTSService.build_websocket_url e2 u2 := by
  constructor
  · simp [VibeVoiceTTSService.build_websocket_url, hva, hvv, hvc, hvs, hvt]
  · simp [EchoTTSService.build_websocket_url, hea, hev, hec, hek, hes, het]

/-- Witness for claim C5: two instances agreeing on address, text, voice
and guidance/seed parameters but differing in sample rate and recorded
connection produce identical URLs. -/
theorem build_websocket_url_deterministic_witness :
    VibeVoiceTTSService.build_websocket_url
        { server_url := pys "ws://h", voice := pys "v1", cfg_scale := pys "1.5",
          inference_steps := pys "5", sample_rate := 24000, websocket := none } (pys "hi")
      = VibeVoiceTTSService.build_websocket_url
        { server_url := pys "ws://h", voice := pys "v1", cfg_scale := pys "1.5",
          inference_steps := pys "5", sample_rate := 16000, websocket := some 7 } (pys "hi")
  ∧ EchoTTSService.build_websocket_url
        { server_url := pys "ws://h", voice := pys "v2", cfg_scale_text := pys "2.5",
          cfg_scale_speaker := pys "5.0", seed := pys "0",
          sample_rate := 44100, websocket := none } (pys "hi")
      = EchoTTSService.build_websocket_url
        { server_url := pys "ws://h", voice := pys "v2", cfg_scale_text := pys "2.5",
          cfg_scale_speaker := pys "5.0", seed := pys "0",
          sample_rate := 8000, websocket := some 3 } (pys "hi") :=
  build_websocket_url_deterministic _ _ _ _ _ _ _ _
    rfl rfl rfl rfl rfl rfl rfl rfl rfl rfl rfl

/-- Claim C9: constructing the adapter with base address
`http://localhost:8000/` (trailing slash stripped by `__init__`
regardless of the environment) and voice `v1`, then building the target
URL for text `hi`, yields a URL beginning
`ws://localhost:8000/stream?text=hi&voice=v1&`, whatever the guidance
and step parameters are. -/
theorem example_url_construction (env_url : Option PyStr) (cfg steps : PyStr) :
    init_server_url (some (pys "http://localhost:8000/")) env_url
      = some (pys "http://localhost:8000")
  ∧ pyStartswith
      (VibeVoiceTTSService.build_websocket_url
        { server_url := pys "http://localhost:8000", voice := pys "v1",
          cfg_scale := cfg, inference_steps := steps,
          sample_rate := 24000, websocket := none } (pys "hi"))
      (pys "ws://localhost:8000/stream?text=hi&voice=v1&") = true :=
  ⟨rfl, rfl⟩

/-- Claim C1, counterexample: for the non-blank text `"hi"`, when the
connection attempt itself fails, `run_tts` emits no `"started"` event at
all (the `except` clause yields only the `"stopped"` event), so the claim
that exactly one `"started"` event is emitted "even when the connection
fails" is false on the code. -/
theorem run_tts_connect_failure_counterexample :
    blankText (pys "hi") = false
  ∧ (run_tts_model 24000 none (pys "hi") ConnectOutcome.connectFailure).events.countP
      Frame.isStarted = 0
  ∧ ¬ (run_tts_model 24000 none (pys "hi") ConnectOutcome.connectFailure).events.countP
      Frame.isStarted = 1 := by
  refine ⟨by decide, by decide, by decide⟩

/-- Claim C1, amended: for every non-empty, non-whitespace text input,
`run_tts` emits exactly one `"stopped"` event, always the last event of
the sequence, and no exception escapes for network-layer faults (the
model is a total function); when a connection is established — even when
the server closes abruptly mid-stream — it emits exactly one `"started"`
event, the first event, before any `"audio chunk"` event; when the
connection attempt itself fails, the only event is the single
`"stopped"` event and no `"started"` event is emitted. -/
theorem run_tts_started_stopped_bracket (sample_rate : Nat) (websocket_before : Option Nat)
    (text : PyStr) (o : ConnectOutcome) (h : blankText text = false) :
    (run_tts_model sample_rate websocket_before text o).events.countP Frame.isStopped = 1
  ∧ (∃ pre, (run_tts_model sample_rate websocket_before text o).events = pre ++ [Frame.stopped])
  ∧ (∀ msgs ex, o = ConnectOutcome.stream msgs ex →
        (run_tts_model sample_rate websocket_before text o).events.countP Frame.isStarted = 1
      ∧ (run_tts_model sample_rate websocket_before text o).events.head? = some Frame.started)
  ∧ (o = ConnectOutcome.connectFailure →
        (run_tts_model sample_rate websocket_before text o).events = [Frame.stopped]) := by
  cases o with
  | connectFailure =>
    refine ⟨?_, ⟨[], ?_⟩, ?_, ?_⟩
    · simp [run_tts_model, h, List.countP_cons, Frame.isStopped]
    · simp [run_tts_model, h]
    · intro msgs ex hcontra
      exact absurd hcontra (by simp)
    · intro _
      simp [run_tts_model, h]
  | stream msgs ex =>
    refine ⟨?_, ⟨Frame.started :: msgs.filterMap (frameOfMessage sample_rate), ?_⟩, ?_, ?_⟩
    · simp [run_tts_model, h, List.countP_cons, List.countP_append, Frame.isStopped,
            filterMap_frameOfMessage_eq, countP_isStopped_audio]
    · simp [run_tts_model, h]
    · intro msgs2 ex2 _
      constructor
      · simp [run_tts_model, h, List.countP_cons, List.countP_append, Frame.isStarted,
              filterMap_frameOfMessage_eq, countP_isStarted_audio]
      · simp [run_tts_model, h]
    · intro hcontra
      exact absurd hcontra (by simp)

/-- Witness for claim C1 (amended), on an established connection that the
server closes abruptly after one binary chunk. -/
theorem run_tts_started_stopped_bracket_witness :
    blankText (pys "hi") = false
  ∧ (run_tts_model 24000 none (pys "hi")
      (ConnectOutcome.stream [ServerMessage.binary [0, 1]] StreamExit.connectionClosed)).events.countP
      Frame.isStopped = 1
  ∧ (run_tts_model 24000 none (pys "hi")
      (ConnectOutcome.stream [ServerMessage.binary [0, 1]] StreamExit.connectionClosed)).events.countP
      Frame.isStarted = 1
  ∧ (run_tts_model 24000 none (pys "hi")
      (ConnectOutcome.stream [ServerMessage.binary [0, 1]] StreamExit.connectionClosed)).events.head?
      = some Frame.started :=
  ⟨by decide,
   (run_tts_started_stopped_bracket 24000 none (pys "hi")
      (ConnectOutcome.stream [ServerMessage.binary [0, 1]] StreamExit.connectionClosed)
      (by decide)).1,
   ((run_tts_started_stopped_bracket 24000 none (pys "hi")
      (ConnectOutcome.stream [ServerMessage.binary [0, 1]] StreamExit.connectionClosed)
      (by decide)).2.2.1 _ _ rfl).1,
   ((run_tts_started_stopped_bracket 24000 none (pys "hi")
      (ConnectOutcome.stream [ServerMessage.binary [0, 1]] StreamExit.connectionClosed)
      (by decide)).2.2.1 _ _ rfl).2⟩

/-- Claim C2: over any inbound message sequence, the `"audio chunk"`
events of a `run_tts` call are exactly one event per binary message, in
order, carrying the received bytes unmodified, the instance's configured
sample rate, and one channel; textual messages contribute no audio
event. Holds for both service variants. -/
theorem run_tts_audio_frames_exact (v : VibeVoiceTTSService) (e : EchoTTSService)
    (text : PyStr) (msgs : List ServerMessage) (ex : StreamExit)
    (h : blankText text = false) :
    (VibeVoiceTTSService.run_tts v text (ConnectOutcome.stream msgs ex)).events.filter Frame.isAudio
      = (binaryPayloads msgs).map (fun b => Frame.audio b v.sample_rate 1)
  ∧ (EchoTTSService.run_tts e text (ConnectOutcome.stream msgs ex)).events.filter Frame.isAudio
      = (binaryPayloads msgs).map (fun b => Frame.audio b e.sample_rate 1) := by
  constructor <;>
    simp [VibeVoiceTTSService.run_tts, EchoTTSService.run_tts, run_tts_model, h,
          List.filter_cons, List.filter_append, Frame.isAudio,
          filterMap_frameOfMessage_eq, filter_isAudio_audio]

/-- Witness for claim C2: two binary messages interleaved with a textual
log message produce exactly the two byte-identical audio events. -/
theorem run_tts_audio_frames_exact_witness :
    blankText (pys "hi") = false
  ∧ (VibeVoiceTTSService.run_tts
        { server_url := pys "ws://h", voice := pys "v1", cfg_scale := pys "1.5",
          inference_steps := pys "5", sample_rate := 24000, websocket := none }
        (pys "hi")
        (ConnectOutcome.stream
          [ServerMessage.binary [1, 2], ServerMessage.textMsg (pys "log"),
           ServerMessage.binary [3]] StreamExit.normal)).events.filter Frame.isAudio
      = [Frame.audio [1, 2] 24000 1, Frame.audio [3] 24000 1] :=
  ⟨by decide,
   ((run_tts_audio_frames_exact
      { server_url := pys "ws://h", voice := pys "v1", cfg_scale := pys "1.5",
        inference_steps := pys "5", sample_rate := 24000, websocket := none }
      { server_url := pys "ws://h", voice := pys "v2", cfg_scale_text := pys "2.5",
        cfg_scale_speaker := pys "5.0", seed := pys "0",
        sample_rate := 44100, websocket := none }
      (pys "hi")
      [ServerMessage.binary [1, 2], ServerMessage.textMsg (pys "log"),
       ServerMessage.binary [3]] StreamExit.normal (by decide)).1).trans (by decide)⟩

/-- Claim C3: for empty or all-whitespace text, `run_tts` produces zero
events and attempts zero connections, in both service variants. -/
theorem run_tts_blank_noop (v : VibeVoiceTTSService) (e : EchoTTSService)
    (text : PyStr) (o : ConnectOutcome) (h : blankText text = true) :
    (VibeVoiceTTSService.run_tts v text o).events = []
  ∧ (VibeVoiceTTSService.run_tts v text o).connect_attempts = 0
  ∧ (EchoTTSService.run_tts e text o).events = []
  ∧ (EchoTTSService.run_tts e text o).connect_attempts = 0 := by
  refine ⟨?_, ?_, ?_, ?_⟩ <;>
    simp [VibeVoiceTTSService.run_tts, EchoTTSService.run_tts, run_tts_model, h]

/-- Witness for claim C3 at the whitespace-only input `" \t "`. -/
theorem run_tts_blank_noop_witness :
    blankText (pys " \t ") = true
  ∧ (VibeVoiceTTSService.run_tts
        { server_url := pys "ws://h", voice := pys "v1", cfg_scale := pys "1.5",
          inference_steps := pys "5", sample_rate := 24000, websocket := none }
        (pys " \t ") ConnectOutcome.connectFailure).events = []
  ∧ (VibeVoiceTTSService.run_tts
        { server_url := pys "ws://h", voice := pys "v1", cfg_scale := pys "1.5",
          inference_steps := pys "5", sample_rate := 24000, websocket := none }
        (pys " \t ") ConnectOutcome.connectFailure).connect_attempts = 0 :=
  ⟨by decide,
   (run_tts_blank_noop
      { server_url := pys "ws://h", voice := pys "v1", cfg_scale := pys "1.5",
        inference_steps := pys "5", sample_rate := 24000, websocket := none }
      { server_url := pys "ws://h", voice := pys "v2", cfg_scale_text := pys "2.5",
        cfg_scale_speaker := pys "5.0", seed := pys "0",
        sample_rate := 44100, websocket := none }
      (pys " \t ") ConnectOutcome.connectFailure (by decide)).1,
   (run_tts_blank_noop
      { server_url := pys "ws://h", voice := pys "v1", cfg_scale := pys "1.5",
        inference_steps := pys "5", sample_rate := 24000, websocket := none }
      { server_url := pys "ws://h", voice := pys "v2", cfg_scale_text := pys "2.5",
        cfg_scale_speaker := pys "5.0", seed := pys "0",
        sample_rate := 44100, websocket := none }
      (pys " \t ") ConnectOutcome.connectFailure (by decide)).2.1⟩

/-- Claim C7: after every synthesis call that entered the network path
the connection reference is cleared; a blank call from the cleared state
leaves it cleared; an explicit stop/cancel clears the reference and
swallows close errors; a subsequent stop/cancel after that is a safe
no-op (closes nothing, raises nothing). -/
theorem connection_reference_cleared (sample_rate : Nat) (websocket_before ws : Option Nat)
    (text blank_text : PyStr) (o o2 : ConnectOutcome) (e1 e2 : Bool)
    (h : blankText text = false) (hb : blankText blank_text = true) :
    (run_tts_model sample_rate websocket_before text o).websocket_after = none
  ∧ (run_tts_model sample_rate none blank_text o2).websocket_after = none
  ∧ (close_websocket ws e1).websocket_after = none
  ∧ (close_websocket ws e1).raised = false
  ∧ close_websocket (close_websocket ws e1).websocket_after e2
      = { websocket_after := none, close_called_on := none, raised := false } := by
  refine ⟨?_, ?_, ?_, ?_, ?_⟩
  · cases o <;> simp [run_tts_model, h]
  · cases o2 <;> simp [run_tts_model, hb]
  · cases ws <;> simp [close_websocket]
  · cases ws <;> simp [close_websocket]
  · cases ws <;> simp [close_websocket]

/-- Witness for claim C7, with a recorded connection and a close call
that raises. -/
theorem connection_reference_cleared_witness :
    blankText (pys "hi") = false
  ∧ blankText (pys " ") = true
  ∧ (run_tts_model 24000 (some 5) (pys "hi") ConnectOutcome.connectFailure).websocket_after = none
  ∧ (run_tts_model 24000 none (pys " ") ConnectOutcome.connectFailure).websocket_after = none
  ∧ (close_websocket (some 5) true).websocket_after = none
  ∧ (close_websocket (some 5) true).raised = false
  ∧ close_websocket (close_websocket (some 5) true).websocket_after false
      = { websocket_after := none, close_called_on := none, raised := false } :=
  ⟨by decide, by decide,
   (connection_reference_cleared 24000 (some 5) (some 5) (pys "hi") (pys " ")
      ConnectOutcome.connectFailure ConnectOutcome.connectFailure true false
      (by decide) (by decide)).1,
   (connection_reference_cleared 24000 (some 5) (some 5) (pys "hi") (pys " ")
      ConnectOutcome.connectFailure ConnectOutcome.connectFailure true false
      (by decide) (by decide)).2.1,
   (connection_reference_cleared 24000 (some 5) (some 5) (pys "hi") (pys " ")
      ConnectOutcome.connectFailure ConnectOutcome.connectFailure true false
      (by decide) (by decide)).2.2.1,
   (connection_reference_cleared 24000 (some 5) (some 5) (pys "hi") (pys " ")
      ConnectOutcome.connectFailure ConnectOutcome.connectFailure true false
      (by decide) (by decide)).2.2.2.1,
   (connection_reference_cleared 24000 (some 5) (some 5) (pys "hi") (pys " ")
      ConnectOutcome.connectFailure ConnectOutcome.connectFailure true false
      (by decide) (by decide)).2.2.2.2⟩

/-- Claim C6: adapter construction fails (raises `ValueError`, modelled
as `none`) exactly when neither the explicit `server_url` argument nor
the environment fallback provides a (non-empty) server address; when an
address is provided, construction succeeds and stores it with trailing
slashes removed. This happens before any network activity: the model of
`__init__` involves no connection. -/
theorem init_server_url_spec (a e : Option PyStr) :
    (init_server_url a e = none ↔ ((a = none ∨ a = some []) ∧ (e = none ∨ e = some [])))
  ∧ (∀ s, resolve_server_url a e = some s → s ≠ [] →
        init_server_url a e = some (pyRstripSlash s)) := by
  constructor
  · cases a with
    | none =>
      cases e with
      | none => simp [init_server_url, resolve_server_url]
      | some t =>
        cases t with
        | nil => simp [init_server_url, resolve_server_url]
        | cons c cs => simp [init_server_url, resolve_server_url]
    | some s =>
      cases s with
      | nil =>
        cases e with
        | none => simp [init_server_url, resolve_server_url]
        | some t =>
          cases t with
          | nil => simp [init_server_url, resolve_server_url]
          | cons c cs => simp [init_server_url, resolve_server_url]
      | cons c cs => simp [init_server_url, resolve_server_url]
  · intro s hs hne
    cases s with
    | nil => exact absurd rfl hne
    | cons c cs => simp [init_server_url, hs]

/-- Witness for claim C6: an explicit address with a trailing slash is
accepted and stored stripped. -/
theorem init_server_url_spec_witness :
    init_server_url (some (pys "http://x/")) none = some (pyRstripSlash (pys "http://x/")) :=
  (init_server_url_spec (some (pys "http://x/")) none).2 (pys "http://x/") rfl (by decide)

/-- Claim C10: constructing the adapter with `server_url` equal to the
empty string behaves exactly as if the argument were absent — the
environment fallback is consulted — and if the environment variable is
unset or empty, construction raises the configuration error; the empty
string is never accepted as a server address. -/
theorem empty_server_url_like_absent (e : Option PyStr) :
    init_server_url (some []) e = init_server_url none e
  ∧ ((e = none ∨ e = some []) → init_server_url (some []) e = none) := by
  constructor
  · rfl
  · rintro (rfl | rfl) <;> simp [init_server_url, resolve_server_url]

/-- Witness for claim C10 with the environment variable unset. -/
theorem empty_server_url_like_absent_witness :
    init_server_url (some []) none = none :=
  (empty_server_url_like_absent none).2 (Or.inl rfl)

/-- Claim C8: `get_available_voices` returns the voice identifiers parsed
from the JSON body when the HTTP status is 200, and returns the empty
list for every non-200 status and for every exception during the request
or the parse; the model is a total function, so no exception escapes.
Holds for both backend variants. -/
theorem get_available_voices_spec (status : Nat) (body : VibeVoiceConfigBody)
    (ebody : EchoVoicesBody) :
    (status = 200 → vibevoice_get_available_voices (HttpOutcome.response status body)
        = body.voices.getD [])
  ∧ (¬ status = 200 → vibevoice_get_available_voices (HttpOutcome.response status body) = [])
  ∧ vibevoice_get_available_voices HttpOutcome.exn = []
  ∧ (status = 200 → echo_get_available_voices (HttpOutcome.response status ebody)
        = (ebody.voice_items.getD []).map echo_voice_entry)
  ∧ (¬ status = 200 → echo_get_available_voices (HttpOutcome.response status ebody) = [])
  ∧ echo_get_available_voices HttpOutcome.exn = [] := by
  refine ⟨?_, ?_, rfl, ?_, ?_, rfl⟩ <;> intro h <;>
    simp [vibevoice_get_available_voices, echo_get_available_voices, h]

/-- Witness for claim C8: HTTP 500 yields the empty list, HTTP 200 yields
the parsed identifiers, for both backend variants. -/
theorem get_available_voices_spec_witness :
    vibevoice_get_available_voices (HttpOutcome.response 500 { voices := some [pys "a"] }) = []
  ∧ vibevoice_get_available_voices (HttpOutcome.response 200 { voices := some [pys "a"] })
      = [pys "a"]
  ∧ echo_get_available_voices (HttpOutcome.response 500
      { voice_items := some [{ id := some (pys "b"), name := none }] }) = []
  ∧ echo_get_available_voices (HttpOutcome.response 200
      { voice_items := some [{ id := some (pys "b"), name := none }] }) = [pys "b"] :=
  ⟨(get_available_voices_spec 500 { voices := some [pys "a"] }
      { voice_items := some [{ id := some (pys "b"), name := none }] }).2.1 (by decide),
   ((get_available_voices_spec 200 { voices := some [pys "a"] }
      { voice_items := some [{ id := some (pys "b"), name := none }] }).1 rfl).trans rfl,
   (get_available_voices_spec 500 { voices := some [pys "a"] }
      { voice_items := some [{ id := some (pys "b"), name := none }] }).2.2.2.2.1 (by decide),
   ((get_available_voices_spec 200 { voices := some [pys "a"] }
      { voice_items := some [{ id := some (pys "b"), name := none }] }).2.2.2.1 rfl).trans rfl⟩
